import Mathlib

/-!
Shallow embedding of `battlemap_generator.py` (dnd_battlemap repository).

Modelling conventions:
* Python strings are Lean `String`s; `prompt.lower()` is `String.toLower`,
  substring tests are infix tests on the underlying character lists.
* Python float literals are modelled as exact rationals (`ℚ`); every numeric
  literal in the source is a short decimal, so the rational value is the
  intended one.
* An override parameter `"key=value"` is modelled structurally as a pair of
  its key and its value (`Override`).  The source's
  `p.startswith("scene.caves_chance")` test on the rendered string is
  equivalent to a prefix test on the key alone, because the pattern contains
  no `=` character and equals a full key, so it is embedded as a prefix test
  on `Override.key`.
* Child processes are opaque: each `subprocess.run` call is summarised by a
  `ProcResult` oracle value (normal exit, `CalledProcessError`, or
  `TimeoutExpired`) supplied as a parameter.
* The file system seen by `run_infinigen_export`'s search heuristics is an
  explicit record `FS` of the primitives the code calls (`os.path.exists`,
  `os.listdir`, `os.path.isdir`, `os.walk`).
* `random.randint(a, b)` returns an integer in the closed interval `[a, b]`
  (Python semantics); it is modelled as `a + r % (b - a + 1)` over an
  arbitrary entropy source `r : ℕ`.
* Logging, directory creation and gin-file staging are side effects with no
  bearing on the claims and are not part of the state model.
-/

namespace Battlemap

/-- Outcome of one child process launched with `subprocess.run(..., check=True)`. -/
inductive ProcResult
  | ok
  | failed
  | timeout
deriving DecidableEq, Repr

/-- The two subprocess exception kinds the script catches. -/
inductive ProcErr
  | calledProcessError
  | timeoutExpired
deriving DecidableEq, Repr

/-- The value part of an override parameter: either a literal token
(`True`, `False`, `[0,0]`) or a numeric value. -/
inductive OvVal
  | s (v : String)
  | q (v : ℚ)
deriving DecidableEq, Repr

/-- One `"key=value"` override string, represented structurally. -/
structure Override where
  key : String
  val : OvVal
deriving DecidableEq, Repr

/-- The descriptor dictionary produced by `parse_prompt` and consumed by
`select_infinigen_config`.  `generation_params` models the optional
`"generation_params"` dict entry (empty list = key absent). -/
structure Descriptor where
  primary_biome : String
  secondary_features : List String
  style : String
  generation_params : List (String × ℚ)
deriving DecidableEq, Repr

/-- `needle in hay` on character lists: true iff `needle` occurs as a
contiguous substring of `hay`. -/
def containsSub (hay needle : List Char) : Bool :=
  match hay with
  | [] => needle.isEmpty
  | _ :: t => needle.isPrefixOf hay || containsSub t needle

/-- `str.lower()` as a character list (ASCII keywords only are compared). -/
def lowerChars (s : String) : List Char :=
  s.toList.map Char.toLower

/-- `str.startswith(pat)`. -/
def strStartsWith (s pat : String) : Bool :=
  List.isPrefixOf pat.toList s.toList

/-- `str.endswith(suff)`. -/
def strEndsWith (s suff : String) : Bool :=
  List.isSuffixOf suff.toList s.toList

/-- `kw in prompt.lower()`: case-insensitive substring test, exactly as the
source performs it (the keywords are already lower case). -/
def containsKw (prompt kw : String) : Bool :=
  containsSub (lowerChars prompt) kw.toList

/-- `parse_prompt` (battlemap_generator.py, lines 17-39): keyword matching
building the descriptor by successive assignments. -/
def parse_prompt (prompt : String) : Descriptor :=
  let parsed : Descriptor :=
    { primary_biome := "generic", secondary_features := [], style := "dnd_fantasy",
      generation_params := [] }
  let parsed := if containsKw prompt ("forest") then
      { parsed with primary_biome := "forest" } else parsed
  let parsed := if containsKw prompt ("cave") then
      { parsed with secondary_features := parsed.secondary_features ++ [("cave")] }
    else parsed
  let parsed := if containsKw prompt ("mountain") then
      { parsed with primary_biome := "mountain" } else parsed
  parsed

/-- `params.get(name, default)` on the generation-params dict. -/
def getParam (ps : List (String × ℚ)) (k : String) (d : ℚ) : ℚ :=
  (ps.lookup k).getD d

/-- The baseline override list of `select_infinigen_config`
(battlemap_generator.py, lines 60-118), in source order. -/
def baseOverrides (params : List (String × ℚ)) (scene_scale_factor : ℚ) : List Override :=
  [ ⟨"compose_nature.trees_chance", .q (getParam params ("trees_chance") 0.4)⟩,
    ⟨"compose_nature.bushes_chance", .q (getParam params ("bushes_chance") 0.3)⟩,
    ⟨"compose_nature.ground_leaves_chance", .q (getParam params ("ground_leaves_chance") 0.4)⟩,
    ⟨"compose_nature.grass_chance", .q (getParam params ("grass_chance") 0.3)⟩,
    ⟨"compose_nature.ferns_chance", .q (getParam params ("ferns_chance") 0.1)⟩,
    ⟨"compose_nature.flowers_chance", .q (getParam params ("flowers_chance") 0.05)⟩,
    ⟨"compose_nature.rocks_chance", .q (getParam params ("rocks_chance") 0.02)⟩,
    ⟨"compose_nature.boulders_chance", .q (getParam params ("boulders_chance") 0.02)⟩,
    ⟨"compose_nature.monocots_chance", .q (getParam params ("monocots_chance") 0.01)⟩,
    ⟨"compose_nature.terrain_enabled", .s ("True")⟩,
    ⟨"compose_nature.coarse_terrain_enabled", .s ("True")⟩,
    ⟨"compose_nature.terrain_surface_enabled", .s ("True")⟩,
    ⟨"compose_nature.atmosphere_chance", .q (getParam params ("atmosphere_chance") 0.0)⟩,
    ⟨"compose_nature.volumetric_clouds_chance", .q (getParam params ("volumetric_clouds_chance") 0.0)⟩,
    ⟨"compose_nature.wind_chance", .q (getParam params ("wind_chance") 0.0)⟩,
    ⟨"compose_nature.turbulence_chance", .q (getParam params ("turbulence_chance") 0.0)⟩,
    ⟨"compose_nature.rain_particles_chance", .q (getParam params ("rain_particles_chance") 0.0)⟩,
    ⟨"compose_nature.leaf_particles_chance", .q (getParam params ("leaf_particles_chance") 0.0)⟩,
    ⟨"scene.caves_chance", .q 0.0⟩,
    ⟨"Caves.n_lattice", .q 0⟩,
    ⟨"run_erosion.n_iters", .s ("[0,0]")⟩,
    ⟨"ant_landscape_asset.snowfall", .q 0⟩,
    ⟨"multi_mountains_asset.snowfall", .q 0⟩,
    ⟨"coast_asset.snowfall", .q 0⟩,
    ⟨"get_land_process.snowfall_enabled", .q 0⟩,
    ⟨"populate_scene.snow_layer_chance", .q 0⟩,
    ⟨"multi_mountains_params.height", .q (50.0 * scene_scale_factor)⟩,
    ⟨"multi_mountains_params.coverage", .q (0.2 * scene_scale_factor)⟩,
    ⟨"multi_mountains_params.slope_height", .q (10.0 * scene_scale_factor)⟩,
    ⟨"multi_mountains_asset.erosion", .s ("False")⟩,
    ⟨"multi_mountains_asset.snowfall", .s ("False")⟩,
    ⟨"compose_nature.inview_distance", .q 5⟩,
    ⟨"placement.populate_all.dist_cull", .q 5⟩,
    ⟨"compose_nature.near_distance", .q 1⟩,
    ⟨"compose_nature.center_distance", .q 2⟩ ]

/-- `select_infinigen_config` (battlemap_generator.py, lines 41-142).
Returns `(generator_module, base_gin_files, override_params)`. -/
def select_infinigen_config (parsed_prompt : Descriptor) (scene_scale_factor : ℚ) :
    String × List String × List Override :=
  let generator_module := "infinigen_examples.generate_nature"
  let base_gin_files := [("forest_template.gin")]
  let params := parsed_prompt.generation_params
  let override_params := baseOverrides params scene_scale_factor
  if parsed_prompt.primary_biome = "forest" then
    if ("cave") ∈ parsed_prompt.secondary_features then
      let override_params := override_params.filter
        (fun p => !(strStartsWith p.key ("scene.caves_chance")))
      let override_params := override_params.filter
        (fun p => !(strStartsWith p.key ("Caves.on_the_fly_instances")))
      let override_params := override_params ++
        [ ⟨"scene.caves_chance", .q 1.0⟩,
          ⟨"Caves.n_lattice", .q 1⟩,
          ⟨"Caves.frequency", .q 0.1⟩,
          ⟨"Caves.randomness", .q 0.0⟩ ]
      (generator_module, base_gin_files, override_params)
    else
      (generator_module, base_gin_files, override_params)
  else if parsed_prompt.primary_biome = "desert" then
    (generator_module, [("desert_template.gin")], override_params)
  else
    (generator_module, base_gin_files, override_params)

/-- `OUTPUT_DIR_BASE` (battlemap_generator.py, line 12). -/
def OUTPUT_DIR_BASE : String := "generated_battlemaps"

/-- `os.path.join` for the relative components used here. -/
def joinPath (a b : String) : String := a ++ "/" ++ b

/-- Python's `random.randint(a, b)`: an integer `N` with `a ≤ N ≤ b`
(both endpoints included), drawn from an entropy source `r`. -/
def randint (a b : ℤ) (r : ℕ) : ℤ :=
  a + (r : ℤ) % (b - a + 1)

/-- Scene-name derivation when no name is supplied
(battlemap_generator.py, line 358):
`prompt.lower().replace(" ", "_").replace("'", "") + f"_{random.randint(1000, 9999)}"`.
Both `replace` calls have single-character patterns, so they are a
character map (space to underscore) and a character filter (drop
apostrophes, code point 39). -/
def sceneNameFromPrompt (prompt : String) (r : ℕ) : String :=
  String.mk (((lowerChars prompt).map
      (fun c => if c = Char.ofNat 32 then Char.ofNat 95 else c)).filter
      (fun c => c ≠ Char.ofNat 39)) ++
    "_" ++ toString (randint 1000 9999 r)

/-- `run_infinigen_generation` (battlemap_generator.py, lines 144-218):
runs the coarse stage then the populate stage as child processes; a
non-zero exit or timeout of either stage re-raises to the caller; on
success returns the absolute output folder (absolute-path resolution is
modelled as the identity).  The generator module, gin files, override
parameters and seed are passed to the child processes only. -/
def run_infinigen_generation (coarse populate : ProcResult) (scene_name : String)
    (_generator_module : String) (_gin_files : List String)
    (_override_params : List Override) (_seed : ℤ) : Except ProcErr String :=
  let output_scene_folder_absolute :=
    joinPath (joinPath OUTPUT_DIR_BASE scene_name) ("infinigen_raw")
  match coarse with
  | .failed => .error .calledProcessError
  | .timeout => .error .timeoutExpired
  | .ok =>
    match populate with
    | .failed => .error .calledProcessError
    | .timeout => .error .timeoutExpired
    | .ok => .ok output_scene_folder_absolute

/-- The file-system primitives consulted by `run_infinigen_export`'s
search heuristics.  `listdir` returns `none` when the directory does not
exist (`FileNotFoundError`); `walkFiles d` lists the full paths of all
files below `d` in `os.walk` order. -/
structure FS where
  pathExists : String → Bool
  listdir : String → Option (List String)
  isdir : String → Bool
  walkFiles : String → List String

/-- The export output directory
`os.path.join(INFINIGEN_PATH, OUTPUT_DIR_BASE, scene_name, "exported_scene")`
(battlemap_generator.py, line 227). -/
def exportOutputDir (infinigenPath scene_name : String) : String :=
  joinPath (joinPath (joinPath infinigenPath OUTPUT_DIR_BASE) scene_name) ("exported_scene")

/-- Attempt 1 candidate: the known nested path
`<dir>/export_scene.blend/export_scene.usdc` (line 265). -/
def knownNestedPath (dir : String) : String :=
  joinPath (joinPath dir ("export_scene.blend")) ("export_scene.usdc")

/-- Attempt 2 candidate: `<dir>/scene.usdc` (line 272). -/
def directScenePath (dir : String) : String := joinPath dir ("scene.usdc")

/-- Attempt 3 candidate: `<dir>/export_scene.usdc` (line 278). -/
def directExportScenePath (dir : String) : String := joinPath dir ("export_scene.usdc")

/-- The body of the attempt-4 `for item in dir_contents` loop
(lines 290-305): first `.blend` directory item containing
`export_scene.usdc` or `scene.usdc`. -/
def findInItems (fs : FS) (dir : String) : List String → Option String
  | [] => none
  | item :: rest =>
    let item_path := joinPath dir item
    if fs.isdir item_path && strEndsWith item (".blend") then
      let nested_usd_path := joinPath item_path ("export_scene.usdc")
      if fs.pathExists nested_usd_path then some nested_usd_path
      else
        let nested_scene_usd_path := joinPath item_path ("scene.usdc")
        if fs.pathExists nested_scene_usd_path then some nested_scene_usd_path
        else findInItems fs dir rest
    else findInItems fs dir rest

/-- Attempt 4 (lines 284-307): `os.listdir` shallow search; a
`FileNotFoundError` from `os.listdir` is caught and yields no result. -/
def listdirSearch (fs : FS) (dir : String) : Option String :=
  match fs.listdir dir with
  | none => none
  | some dir_contents => findInItems fs dir dir_contents

/-- The final broader search (lines 310-316): first file found by
`os.walk` whose name ends in `.usd`, `.usda` or `.usdc`. -/
def walkSearch (fs : FS) (dir : String) : Option String :=
  (fs.walkFiles dir).find?
    (fun f => strEndsWith f (".usd") || strEndsWith f (".usda") || strEndsWith f (".usdc"))

/-- `run_infinigen_export` (battlemap_generator.py, lines 220-330): runs
the export child process (failure or timeout re-raises), then locates the
scene file by the ordered fallback strategies; if none matches, returns
the export directory itself after logging a warning. -/
def run_infinigen_export (fs : FS) (exportProc : ProcResult)
    (infinigenPath scene_name : String) (_infinigen_raw_folder : String) :
    Except ProcErr String :=
  let true_export_output_dir := exportOutputDir infinigenPath scene_name
  match exportProc with
  | .failed => .error .calledProcessError
  | .timeout => .error .timeoutExpired
  | .ok =>
    if fs.pathExists (knownNestedPath true_export_output_dir) then
      .ok (knownNestedPath true_export_output_dir)
    else if fs.pathExists (directScenePath true_export_output_dir) then
      .ok (directScenePath true_export_output_dir)
    else if fs.pathExists (directExportScenePath true_export_output_dir) then
      .ok (directExportScenePath true_export_output_dir)
    else
      match listdirSearch fs true_export_output_dir with
      | some p => .ok p
      | none =>
        match walkSearch fs true_export_output_dir with
        | some p => .ok p
        | none => .ok true_export_output_dir

/-- `post_process_scene` (battlemap_generator.py, lines 333-346): a
placeholder that returns its input path unchanged. -/
def post_process_scene (exported_scene_path : String) (_parsed_prompt : Descriptor) : String :=
  exported_scene_path

/-- Observable outcome of one `generate_battlemap` run: the seed chosen
for the run, whether the export stage was ever invoked, and the returned
value (`none` models Python `None`). -/
structure RunTrace where
  seed : ℤ
  exportInvoked : Bool
  result : Option String
deriving DecidableEq, Repr

/-- `generate_battlemap` (battlemap_generator.py, lines 350-443): the
top-level pipeline.  `coarse`, `populate` and `exportP` are the outcomes
of the three child processes (later ones are irrelevant when an earlier
one fails); `rSeed` and `rName` are the entropy sources for the two
`random.randint` calls.  Any `CalledProcessError` or `TimeoutExpired`
raised by a stage is caught and turned into a `none` result. -/
def generate_battlemap (fs : FS) (coarse populate exportP : ProcResult)
    (infinigenPath : String) (prompt : String) (scene_name? : Option String)
    (scene_scale_factor : ℚ) (rSeed rName : ℕ) : RunTrace :=
  let scene_name :=
    match scene_name? with
    | some n => n
    | none => sceneNameFromPrompt prompt rName
  let parsed_elements := parse_prompt prompt
  let cfg := select_infinigen_config parsed_elements scene_scale_factor
  let seed := randint 0 100000 rSeed
  match run_infinigen_generation coarse populate scene_name cfg.1 cfg.2.1 cfg.2.2 seed with
  | .error _ => { seed := seed, exportInvoked := false, result := none }
  | .ok raw_scene_folder =>
    match run_infinigen_export fs exportP infinigenPath scene_name raw_scene_folder with
    | .error _ => { seed := seed, exportInvoked := true, result := none }
    | .ok exported_scene_file =>
      { seed := seed, exportInvoked := true,
        result := some (post_process_scene exported_scene_file parsed_elements) }

/-- The descriptor of the end-to-end forest-with-cave scenario. -/
def caveDescriptor : Descriptor :=
  { primary_biome := "forest", secondary_features := [("cave")], style := "dnd_fantasy",
    generation_params := [] }

/-- The descriptor of the end-to-end plain-forest scenario. -/
def forestDescriptor : Descriptor :=
  { primary_biome := "forest", secondary_features := [], style := "dnd_fantasy",
    generation_params := [] }

/-- A file system on which every query comes up empty: no path exists,
every listing is empty, nothing is a directory, walks see no files. -/
def emptyFS : FS :=
  { pathExists := fun _ => false, listdir := fun _ => some [], isdir := fun _ => false,
    walkFiles := fun _ => [] }

/- ------------------------------------------------------------------ -/
/- Helper lemmas                                                      -/
/- ------------------------------------------------------------------ -/

theorem mem_baseOverrides_height (params : List (String × ℚ)) (s : ℚ) :
    (⟨"multi_mountains_params.height", .q (50.0 * s)⟩ : Override) ∈ baseOverrides params s := by
  unfold baseOverrides
  repeat first | exact List.Mem.head _ | apply List.Mem.tail

theorem mem_baseOverrides_coverage (params : List (String × ℚ)) (s : ℚ) :
    (⟨"multi_mountains_params.coverage", .q (0.2 * s)⟩ : Override) ∈ baseOverrides params s := by
  unfold baseOverrides
  repeat first | exact List.Mem.head _ | apply List.Mem.tail

theorem mem_baseOverrides_slope_height (params : List (String × ℚ)) (s : ℚ) :
    (⟨"multi_mountains_params.slope_height", .q (10.0 * s)⟩ : Override) ∈ baseOverrides params s := by
  unfold baseOverrides
  repeat first | exact List.Mem.head _ | apply List.Mem.tail

theorem mem_baseOverrides_n_lattice (params : List (String × ℚ)) (s : ℚ) :
    (⟨"Caves.n_lattice", .q 0⟩ : Override) ∈ baseOverrides params s := by
  unfold baseOverrides
  repeat first | exact List.Mem.head _ | apply List.Mem.tail

/-- Any baseline override whose key matches neither removal pattern
survives into the override list of every branch of
`select_infinigen_config`. -/
theorem mem_select_of_mem_base (d : Descriptor) (s : ℚ) (e : Override)
    (hbase : e ∈ baseOverrides d.generation_params s)
    (hp : (!(strStartsWith e.key ("scene.caves_chance"))) = true)
    (hq : (!(strStartsWith e.key ("Caves.on_the_fly_instances"))) = true) :
    e ∈ (select_infinigen_config d s).2.2 := by
  simp only [select_infinigen_config]
  split_ifs
  · exact List.mem_append_left _
      (List.mem_filter.mpr ⟨List.mem_filter.mpr ⟨hbase, hp⟩, hq⟩)
  · exact hbase
  · exact hbase
  · exact hbase

/-- In the forest-with-cave branch the override list is the doubly
filtered baseline followed by the four appended cave overrides. -/
theorem select_cave_branch_eq (d : Descriptor) (s : ℚ)
    (hb : d.primary_biome = "forest") (hc : ("cave") ∈ d.secondary_features) :
    (select_infinigen_config d s).2.2 =
      ((baseOverrides d.generation_params s).filter
          (fun p => !(strStartsWith p.key ("scene.caves_chance")))).filter
          (fun p => !(strStartsWith p.key ("Caves.on_the_fly_instances"))) ++
        [ ⟨"scene.caves_chance", .q 1.0⟩, ⟨"Caves.n_lattice", .q 1⟩,
          ⟨"Caves.frequency", .q 0.1⟩, ⟨"Caves.randomness", .q 0.0⟩ ] := by
  simp only [select_infinigen_config]
  rw [if_pos hb, if_pos hc]

/-- The seed recorded in the trace is always the `random.randint(0, 100000)`
draw, whatever the stage outcomes. -/
theorem generate_battlemap_seed_eq (fs : FS) (c p e : ProcResult)
    (ip prompt : String) (sn? : Option String) (sc : ℚ) (r1 r2 : ℕ) :
    (generate_battlemap fs c p e ip prompt sn? sc r1 r2).seed = randint 0 100000 r1 := by
  unfold generate_battlemap
  dsimp only []
  (repeat' split) <;> rfl

/- ------------------------------------------------------------------ -/
/- Claim theorems                                                     -/
/- ------------------------------------------------------------------ -/

/-- C6: for every prompt containing the substring "forest"
(case-insensitively) and not containing "mountain", the parsed
descriptor's primary biome is "forest". -/
theorem parse_prompt_forest_biome (p : String)
    (hf : containsKw p ("forest") = true)
    (hm : containsKw p ("mountain") = false) :
    (parse_prompt p).primary_biome = "forest" := by
  unfold parse_prompt
  simp only [hf, hm, if_true, Bool.false_eq_true, if_false]
  split <;> rfl

/-- C6 witness: the prompt "a simple forest" satisfies both hypotheses
and parses to the forest biome. -/
theorem parse_prompt_forest_biome_witness :
    containsKw ("a simple forest") ("forest") = true ∧
    containsKw ("a simple forest") ("mountain") = false ∧
    (parse_prompt ("a simple forest")).primary_biome = "forest" :=
  ⟨by decide, by decide, parse_prompt_forest_biome ("a simple forest") (by decide) (by decide)⟩

/-- C7: every prompt containing "mountain" (case-insensitively) parses
to the mountain biome, whatever other biome keywords occur, because the
mountain assignment runs last. -/
theorem parse_prompt_mountain_biome (p : String)
    (hm : containsKw p ("mountain") = true) :
    (parse_prompt p).primary_biome = "mountain" := by
  unfold parse_prompt
  simp only [hm, if_true]

/-- C7 witness: "a mountain forest" contains both keywords yet parses
to the mountain biome. -/
theorem parse_prompt_mountain_biome_witness :
    containsKw ("a mountain forest") ("mountain") = true ∧
    containsKw ("a mountain forest") ("forest") = true ∧
    (parse_prompt ("a mountain forest")).primary_biome = "mountain" :=
  ⟨by decide, by decide, parse_prompt_mountain_biome ("a mountain forest") (by decide)⟩

/-- C8: the parsed secondary features contain "cave" exactly when the
prompt contains "cave" (case-insensitively), and the feature list never
holds duplicates. -/
theorem parse_prompt_cave_feature (p : String) :
    (("cave") ∈ (parse_prompt p).secondary_features ↔ containsKw p ("cave") = true) ∧
    (parse_prompt p).secondary_features.Nodup := by
  unfold parse_prompt
  cases hf : containsKw p ("forest") <;> cases hc : containsKw p ("cave") <;>
    cases hm : containsKw p ("mountain") <;> simp

/-- C9: `select_infinigen_config` is deterministic — equal descriptors
and equal scale factors give identical generator module, template list
and override list (same entries in the same order). -/
theorem select_infinigen_config_deterministic (d₁ d₂ : Descriptor) (s₁ s₂ : ℚ)
    (hd : d₁ = d₂) (hs : s₁ = s₂) :
    select_infinigen_config d₁ s₁ = select_infinigen_config d₂ s₂ := by
  rw [hd, hs]

/-- C9 witness: determinism instantiated at the forest-with-cave
descriptor and scale 1. -/
theorem select_infinigen_config_deterministic_witness :
    caveDescriptor = caveDescriptor ∧ (1 : ℚ) = 1 ∧
    select_infinigen_config caveDescriptor 1 = select_infinigen_config caveDescriptor 1 :=
  ⟨rfl, rfl, select_infinigen_config_deterministic caveDescriptor caveDescriptor 1 1 rfl rfl⟩

/-- C10: every descriptor produced by `parse_prompt` has biome generic,
forest or mountain, features `[]` or `["cave"]`, style "dnd_fantasy",
and in particular never biome "desert", so the desert branch of
`select_infinigen_config` is unreachable from parsed prompts: the
template list is always the forest default. -/
theorem parse_prompt_descriptor_range (p : String) (s : ℚ) :
    ((parse_prompt p).primary_biome = "generic" ∨ (parse_prompt p).primary_biome = "forest" ∨
      (parse_prompt p).primary_biome = "mountain") ∧
    ((parse_prompt p).secondary_features = [] ∨
      (parse_prompt p).secondary_features = [("cave")]) ∧
    (parse_prompt p).style = "dnd_fantasy" ∧
    (parse_prompt p).primary_biome ≠ "desert" ∧
    (select_infinigen_config (parse_prompt p) s).2.1 = [("forest_template.gin")] := by
  unfold parse_prompt
  cases hf : containsKw p ("forest") <;> cases hc : containsKw p ("cave") <;>
    cases hm : containsKw p ("mountain") <;>
    simp [select_infinigen_config]

/-- C3: for every forest descriptor and scale factor `s` the override
list carries the three MultiMountains parameters with values exactly
`50.0 * s`, `0.2 * s` and `10.0 * s`. -/
theorem select_forest_mountain_scaling (d : Descriptor) (s : ℚ)
    (_hb : d.primary_biome = "forest") :
    (⟨"multi_mountains_params.height", .q (50.0 * s)⟩ : Override) ∈
      (select_infinigen_config d s).2.2 ∧
    (⟨"multi_mountains_params.coverage", .q (0.2 * s)⟩ : Override) ∈
      (select_infinigen_config d s).2.2 ∧
    (⟨"multi_mountains_params.slope_height", .q (10.0 * s)⟩ : Override) ∈
      (select_infinigen_config d s).2.2 :=
  ⟨mem_select_of_mem_base _ _ _ (mem_baseOverrides_height _ _) rfl rfl,
   mem_select_of_mem_base _ _ _ (mem_baseOverrides_coverage _ _) rfl rfl,
   mem_select_of_mem_base _ _ _ (mem_baseOverrides_slope_height _ _) rfl rfl⟩

/-- C3 witness: the scaled values at the plain forest descriptor and
scale 1. -/
theorem select_forest_mountain_scaling_witness :
    forestDescriptor.primary_biome = "forest" ∧
    ((⟨"multi_mountains_params.height", .q (50.0 * 1)⟩ : Override) ∈
        (select_infinigen_config forestDescriptor 1).2.2 ∧
      (⟨"multi_mountains_params.coverage", .q (0.2 * 1)⟩ : Override) ∈
        (select_infinigen_config forestDescriptor 1).2.2 ∧
      (⟨"multi_mountains_params.slope_height", .q (10.0 * 1)⟩ : Override) ∈
        (select_infinigen_config forestDescriptor 1).2.2) :=
  ⟨rfl, select_forest_mountain_scaling forestDescriptor 1 rfl⟩

/-- C1 counterexample: for the forest-with-cave descriptor the override
list still contains the baseline cave-suppression override
`Caves.n_lattice=0` (the source removes only the `scene.caves_chance`
entries before appending the cave-enabling overrides), alongside the
cave-enabling `Caves.n_lattice=1` — so a cave-suppression override and a
cave-enabling override do occur simultaneously, contradicting the claim. -/
theorem select_forest_cave_counterexample :
    (⟨"Caves.n_lattice", .q 0⟩ : Override) ∈ (select_infinigen_config caveDescriptor 1).2.2 ∧
    (⟨"Caves.n_lattice", .q 1⟩ : Override) ∈ (select_infinigen_config caveDescriptor 1).2.2 := by
  constructor <;> (repeat first | exact List.Mem.head _ | apply List.Mem.tail)

/-- C1 (amended): for every forest-with-cave descriptor and scale, the
override list contains all four cave-enabling overrides and no
`scene.caves_chance=0.0` suppression override, but it retains the
baseline `Caves.n_lattice=0` suppression override (appended
`Caves.n_lattice=1` follows it). -/
theorem select_forest_cave_overrides (d : Descriptor) (s : ℚ)
    (hb : d.primary_biome = "forest") (hc : ("cave") ∈ d.secondary_features) :
    (⟨"scene.caves_chance", .q 1.0⟩ : Override) ∈ (select_infinigen_config d s).2.2 ∧
    (⟨"Caves.n_lattice", .q 1⟩ : Override) ∈ (select_infinigen_config d s).2.2 ∧
    (⟨"Caves.frequency", .q 0.1⟩ : Override) ∈ (select_infinigen_config d s).2.2 ∧
    (⟨"Caves.randomness", .q 0.0⟩ : Override) ∈ (select_infinigen_config d s).2.2 ∧
    (⟨"scene.caves_chance", .q 0.0⟩ : Override) ∉ (select_infinigen_config d s).2.2 ∧
    (⟨"Caves.n_lattice", .q 0⟩ : Override) ∈ (select_infinigen_config d s).2.2 := by
  rw [select_cave_branch_eq d s hb hc]
  refine ⟨?_, ?_, ?_, ?_, ?_, ?_⟩
  · exact List.mem_append_right _ (by
      repeat first | exact List.Mem.head _ | apply List.Mem.tail)
  · exact List.mem_append_right _ (by
      repeat first | exact List.Mem.head _ | apply List.Mem.tail)
  · exact List.mem_append_right _ (by
      repeat first | exact List.Mem.head _ | apply List.Mem.tail)
  · exact List.mem_append_right _ (by
      repeat first | exact List.Mem.head _ | apply List.Mem.tail)
  · intro hmem
    rcases List.mem_append.mp hmem with h | h
    · exact absurd ((List.mem_filter.mp (List.mem_filter.mp h).1).2) (by decide)
    · norm_num at h
      exact absurd h (by decide)
  · exact List.mem_append_left _
      (List.mem_filter.mpr ⟨List.mem_filter.mpr ⟨mem_baseOverrides_n_lattice _ _, rfl⟩, rfl⟩)

/-- C1 witness: the amended statement instantiated at the
forest-with-cave descriptor and scale 1. -/
theorem select_forest_cave_overrides_witness :
    caveDescriptor.primary_biome = "forest" ∧
    ("cave") ∈ caveDescriptor.secondary_features ∧
    ((⟨"scene.caves_chance", .q 1.0⟩ : Override) ∈
        (select_infinigen_config caveDescriptor 1).2.2 ∧
      (⟨"Caves.n_lattice", .q 1⟩ : Override) ∈ (select_infinigen_config caveDescriptor 1).2.2 ∧
      (⟨"Caves.frequency", .q 0.1⟩ : Override) ∈ (select_infinigen_config caveDescriptor 1).2.2 ∧
      (⟨"Caves.randomness", .q 0.0⟩ : Override) ∈ (select_infinigen_config caveDescriptor 1).2.2 ∧
      (⟨"scene.caves_chance", .q 0.0⟩ : Override) ∉ (select_infinigen_config caveDescriptor 1).2.2 ∧
      (⟨"Caves.n_lattice", .q 0⟩ : Override) ∈ (select_infinigen_config caveDescriptor 1).2.2) :=
  ⟨rfl, List.Mem.head _,
    select_forest_cave_overrides caveDescriptor 1 rfl (List.Mem.head _)⟩

/-- C2 counterexample: with entropy 100000, `random.randint(0, 100000)`
returns 100000 itself (Python's randint includes both endpoints), so the
seed of that run is not below 100000, contradicting the half-open range
of the claim. -/
theorem generate_battlemap_seed_counterexample :
    ¬ ((generate_battlemap emptyFS ProcResult.ok ProcResult.ok ProcResult.ok ("infinigen")
        ("a simple forest") (some ("forest_only_test")) 1 100000 0).seed < 100000) := by
  rw [generate_battlemap_seed_eq]
  decide

/-- C2 (amended): on every invocation the seed lies in the closed
interval [0, 100000] — both endpoints included. -/
theorem generate_battlemap_seed_range (fs : FS) (c p e : ProcResult)
    (ip prompt : String) (sn? : Option String) (sc : ℚ) (r1 r2 : ℕ) :
    0 ≤ (generate_battlemap fs c p e ip prompt sn? sc r1 r2).seed ∧
    (generate_battlemap fs c p e ip prompt sn? sc r1 r2).seed ≤ 100000 := by
  rw [generate_battlemap_seed_eq]
  unfold randint
  constructor <;> omega

/-- C4: if the coarse or the populate child process of the generation
stage fails (non-zero exit or timeout), the pipeline returns `None` and
the export stage is never invoked. -/
theorem generation_failure_aborts (fs : FS) (c p e : ProcResult)
    (ip prompt : String) (sn? : Option String) (sc : ℚ) (r1 r2 : ℕ)
    (h : c ≠ ProcResult.ok ∨ p ≠ ProcResult.ok) :
    (generate_battlemap fs c p e ip prompt sn? sc r1 r2).result = none ∧
    (generate_battlemap fs c p e ip prompt sn? sc r1 r2).exportInvoked = false := by
  cases c <;> cases p <;>
    simp_all [generate_battlemap, run_infinigen_generation]

/-- C4 witness: a failed coarse stage at concrete inputs yields a `None`
result with the export stage not invoked. -/
theorem generation_failure_aborts_witness :
    (ProcResult.failed ≠ ProcResult.ok ∨ ProcResult.ok ≠ ProcResult.ok) ∧
    (generate_battlemap emptyFS ProcResult.failed ProcResult.ok ProcResult.ok ("infinigen")
        ("a simple forest") (some ("forest_only_test")) 1 0 0).result = none ∧
    (generate_battlemap emptyFS ProcResult.failed ProcResult.ok ProcResult.ok ("infinigen")
        ("a simple forest") (some ("forest_only_test")) 1 0 0).exportInvoked = false :=
  ⟨Or.inl (by decide),
    (generation_failure_aborts emptyFS ProcResult.failed ProcResult.ok ProcResult.ok
      ("infinigen") ("a simple forest") (some ("forest_only_test")) 1 0 0
      (Or.inl (by decide))).1,
    (generation_failure_aborts emptyFS ProcResult.failed ProcResult.ok ProcResult.ok
      ("infinigen") ("a simple forest") (some ("forest_only_test")) 1 0 0
      (Or.inl (by decide))).2⟩

/-- C5: when the export process succeeds but none of the ordered search
strategies (known nested path, the two direct filenames, the shallow
`.blend`-directory listing, the recursive walk) finds a scene file,
`run_infinigen_export` returns the export directory itself rather than
failing, and the pipeline run still reports success with that
directory. -/
theorem export_soft_failure (fs : FS) (ip sn prompt raw : String) (sc : ℚ) (r1 r2 : ℕ)
    (h1 : fs.pathExists (knownNestedPath (exportOutputDir ip sn)) = false)
    (h2 : fs.pathExists (directScenePath (exportOutputDir ip sn)) = false)
    (h3 : fs.pathExists (directExportScenePath (exportOutputDir ip sn)) = false)
    (h4 : listdirSearch fs (exportOutputDir ip sn) = none)
    (h5 : walkSearch fs (exportOutputDir ip sn) = none) :
    run_infinigen_export fs ProcResult.ok ip sn raw = Except.ok (exportOutputDir ip sn) ∧
    (generate_battlemap fs ProcResult.ok ProcResult.ok ProcResult.ok ip prompt (some sn)
        sc r1 r2).result = some (exportOutputDir ip sn) := by
  have hexp : ∀ raw', run_infinigen_export fs ProcResult.ok ip sn raw' =
      Except.ok (exportOutputDir ip sn) := by
    intro raw'
    unfold run_infinigen_export
    simp [h1, h2, h3, h4, h5]
  refine ⟨hexp raw, ?_⟩
  unfold generate_battlemap run_infinigen_generation
  dsimp only []
  rw [hexp]
  rfl

/-- C5 witness: on the empty file system every strategy misses, and the
run returns the export directory. -/
theorem export_soft_failure_witness :
    emptyFS.pathExists (knownNestedPath (exportOutputDir ("infinigen") ("scene"))) = false ∧
    emptyFS.pathExists (directScenePath (exportOutputDir ("infinigen") ("scene"))) = false ∧
    emptyFS.pathExists (directExportScenePath (exportOutputDir ("infinigen") ("scene"))) = false ∧
    listdirSearch emptyFS (exportOutputDir ("infinigen") ("scene")) = none ∧
    walkSearch emptyFS (exportOutputDir ("infinigen") ("scene")) = none ∧
    run_infinigen_export emptyFS ProcResult.ok ("infinigen") ("scene") ("raw") =
      Except.ok (exportOutputDir ("infinigen") ("scene")) ∧
    (generate_battlemap emptyFS ProcResult.ok ProcResult.ok ProcResult.ok ("infinigen")
        ("a simple forest") (some ("scene")) 1 0 0).result =
      some (exportOutputDir ("infinigen") ("scene")) :=
  ⟨rfl, rfl, rfl, rfl, rfl,
    (export_soft_failure emptyFS ("infinigen") ("scene") ("a simple forest") ("raw") 1 0 0
      rfl rfl rfl rfl rfl).1,
    (export_soft_failure emptyFS ("infinigen") ("scene") ("a simple forest") ("raw") 1 0 0
      rfl rfl rfl rfl rfl).2⟩

end Battlemap
